import Mathlib

/-
Verification of the invoice-auditor core (rule-based audit engine and
duplicate/similarity detection engine) against its specification.

Modelling conventions:
- Python floats are modelled as exact rationals (ℚ).  All the properties
  settled here are robust under this reading: the comparisons involved are
  far from the rounding error of binary floating point.
- Python dicts holding invoice fields are modelled as structures of
  optional fields; each access site applies the same default the source
  passes to dict.get at that site.
- Insertion-ordered dicts (invoice_history, invoice_hashes, vendor buckets)
  are modelled as association lists in insertion order.
- md5 hexdigest (used only as an equality key) and
  difflib.SequenceMatcher().ratio() (used only on non-empty descriptions)
  are modelled as explicit function parameters; every theorem below is
  proved for an arbitrary such function, hence in particular for the real
  md5 and the real difflib ratio.
- Wall-clock timestamps attached to results are irrelevant to the audited
  properties and are omitted; datetime.now() inside a check is modelled as
  an explicit `now` parameter measured in days.
-/

namespace InvoiceAuditor

/-- A line item of an invoice, as the dict shape the source reads
(description, category, quantity, price); absent keys are `none`. -/
structure LineItem where
  description : Option String := none
  category : Option String := none
  quantity : Option ℚ := none
  price : Option ℚ := none
deriving DecidableEq, Repr

/-- An invoice record, as the dict shape the source reads. -/
structure Invoice where
  invoice_id : Option String := none
  vendor : Option String := none
  date : Option String := none
  subtotal : Option ℚ := none
  tax : Option ℚ := none
  total : Option ℚ := none
  line_items : Option (List LineItem) := none
deriving DecidableEq, Repr, Inhabited

/-- Round `q` to the nearest integer, ties to even, as Python float
formatting with two decimals does on the scaled value. -/
def roundHalfEven (q : ℚ) : ℤ :=
  let n := ⌊q⌋
  let f := q - n
  if f < 1/2 then n
  else if 1/2 < f then n + 1
  else if n % 2 = 0 then n else n + 1

/-- Two-digit zero-padded rendering of `r < 100`. -/
def natPad2 (r : Nat) : String :=
  (if r < 10 then "0" else "") ++ toString r

/-- Model of the Python format `f"{x:.2f}"`: the number rendered with
exactly two decimal places. -/
def fmt2 (q : ℚ) : String :=
  let n := roundHalfEven (q * 100)
  let m := n.natAbs
  (if n < 0 then "-" else "") ++ toString (m / 100) ++ "." ++ natPad2 (m % 100)

/-- Gregorian leap-year test. -/
def isLeapYear (y : Nat) : Bool :=
  (y % 4 == 0 && y % 100 != 0) || y % 400 == 0

/-- Number of days of month `m` (1-12) of year `y`. -/
def daysInMonth (y m : Nat) : Nat :=
  if m = 2 then (if isLeapYear y then 29 else 28)
  else if m = 4 ∨ m = 6 ∨ m = 9 ∨ m = 11 then 30
  else 31

/-- Split a character list at every dash. -/
def splitDash : List Char → List (List Char)
  | [] => [[]]
  | c :: rest =>
    let r := splitDash rest
    if c = '-' then [] :: r
    else
      match r with
      | [] => [[c]]
      | h :: t => (c :: h) :: t

/-- Decimal value of a digit list. -/
def digitsToNat (l : List Char) : Nat :=
  l.foldl (fun a c => a * 10 + (c.toNat - 48)) 0

/-- Model of `datetime.strptime(s, "%Y-%m-%d")`: a four-digit year, a one-
or two-digit month 1-12, a one- or two-digit day valid for that month
(Python's datetime also rejects year 0), the whole string consumed.
Returns the (year, month, day) triple on success. -/
def parseDate (s : String) : Option (Nat × Nat × Nat) :=
  match splitDash s.data with
  | [ys, ms, ds] =>
    if ys.length = 4 ∧ ys.all Char.isDigit ∧
       (ms.length = 1 ∨ ms.length = 2) ∧ ms.all Char.isDigit ∧
       (ds.length = 1 ∨ ds.length = 2) ∧ ds.all Char.isDigit then
      let y := digitsToNat ys
      let m := digitsToNat ms
      let d := digitsToNat ds
      if 1 ≤ y ∧ 1 ≤ m ∧ m ≤ 12 ∧ 1 ≤ d ∧ d ≤ daysInMonth y m then
        some (y, m, d)
      else none
    else none
  | _ => none

/-- Days in the months of year `y` strictly before month `m`. -/
def daysBeforeMonth (y m : Nat) : Nat :=
  (([31, 28, 31, 30, 31, 30, 31, 31, 30, 31, 30]).take (m - 1)).sum +
    (if 2 < m ∧ isLeapYear y then 1 else 0)

/-- Day number of the Gregorian date (y, m, d), counted from an epoch;
differences of these numbers are exactly the day differences datetime
subtraction yields. -/
def daysSinceEpoch (y m d : Nat) : Nat :=
  365 * (y - 1) + ((y - 1) / 4 - (y - 1) / 100) + (y - 1) / 400 +
    daysBeforeMonth y m + (d - 1)

/-- Day number of a parsed date triple. -/
def dateNum (t : Nat × Nat × Nat) : Nat :=
  daysSinceEpoch t.1 t.2.1 t.2.2

/-- The apostrophe character, spelled via its code point, used in messages
copied verbatim from the source. -/
def apos : String := String.singleton (Char.ofNat 39)

/-- Result of an audit rule check (class AuditResult).  The source also
stores a wall-clock `timestamp`, irrelevant to every audited property and
omitted here. -/
structure AuditResult where
  rule_id : String
  passed : Bool
  message : String
  severity : String
deriving DecidableEq, Repr

/-- Parsed policy map handed to rules through the audit context; each
field is `none` when the corresponding key is absent. -/
structure PolicyData where
  max_amount : Option ℚ := none
  allowed_categories : Option (List String) := none
  max_item_prices : Option (List (String × ℚ)) := none
deriving DecidableEq, Repr

/-- Audit context: an open map whose only key the rules read is
`policy_data`.  A `none` context models both `context=None` and a context
dict without a usable policy entry. -/
structure Context where
  policy_data : Option PolicyData := none
deriving DecidableEq, Repr

/-- The audit rules of the system: one constructor per concrete AuditRule
subclass, carrying the constructor parameters of the source class.
`custom` carries the injected check function of CustomRule. -/
inductive Rule where
  | totalMatchesCalculation (rule_id description severity : String) (tolerance : ℚ)
  | lineItemsSum (rule_id description severity : String) (tolerance : ℚ)
  | dateValidity (rule_id description severity : String) (max_age_days allow_future_days : ℤ)
  | requiredFields (rule_id description severity : String) (required_fields : List String)
  | maxAmount (rule_id description severity : String) (max_amount : ℚ)
  | allowedCategories (rule_id description severity : String) (allowed_categories : List String)
  | maxItemPrice (rule_id description severity : String) (max_prices : List (String × ℚ))
  | custom (rule_id description severity : String)
      (check_func : Invoice → Option Context → Bool × String)

/-- The rule_id attribute of a rule. -/
def Rule.rule_id : Rule → String
  | .totalMatchesCalculation rid _ _ _ => rid
  | .lineItemsSum rid _ _ _ => rid
  | .dateValidity rid _ _ _ _ => rid
  | .requiredFields rid _ _ _ => rid
  | .maxAmount rid _ _ _ => rid
  | .allowedCategories rid _ _ _ => rid
  | .maxItemPrice rid _ _ _ => rid
  | .custom rid _ _ _ => rid

/-- The description attribute of a rule. -/
def Rule.description : Rule → String
  | .totalMatchesCalculation _ d _ _ => d
  | .lineItemsSum _ d _ _ => d
  | .dateValidity _ d _ _ _ => d
  | .requiredFields _ d _ _ => d
  | .maxAmount _ d _ _ => d
  | .allowedCategories _ d _ _ => d
  | .maxItemPrice _ d _ _ => d
  | .custom _ d _ _ => d

/-- The severity attribute of a rule. -/
def Rule.severity : Rule → String
  | .totalMatchesCalculation _ _ s _ => s
  | .lineItemsSum _ _ s _ => s
  | .dateValidity _ _ s _ _ => s
  | .requiredFields _ _ s _ => s
  | .maxAmount _ _ s _ => s
  | .allowedCategories _ _ s _ => s
  | .maxItemPrice _ _ s _ => s
  | .custom _ _ s _ => s

/-- Python truthiness test for a named invoice field, as used by
RequiredFieldsRule: the field counts as missing when the key is absent or
its value is falsy (empty string, zero number, empty list).  A name
outside the invoice schema is never present. -/
def fieldMissing (inv : Invoice) (f : String) : Bool :=
  if f = "invoice_id" then inv.invoice_id.getD "" == ""
  else if f = "vendor" then inv.vendor.getD "" == ""
  else if f = "date" then inv.date.getD "" == ""
  else if f = "subtotal" then inv.subtotal.getD 0 == 0
  else if f = "tax" then inv.tax.getD 0 == 0
  else if f = "total" then inv.total.getD 0 == 0
  else if f = "line_items" then inv.line_items.getD [] == []
  else true

/-- Deduplicate preserving first occurrence, modelling the set of
unauthorized category names accumulated by AllowedCategoriesRule (the
source joins a Python set, whose iteration order is unspecified; the
pass/fail verdict does not depend on it). -/
def dedupKeepFirst (l : List String) : List String :=
  l.foldl (fun acc c => if acc.contains c then acc else acc ++ [c]) []

/-- AuditRule.check of each concrete rule class, translated clause by
clause.  `now` stands for datetime.now() measured in days (the source
reads the clock during DateValidityRule.check). -/
def Rule.check (now : ℚ) (r : Rule) (invoice_data : Invoice)
    (context : Option Context) : AuditResult :=
  match r with
  | .totalMatchesCalculation rid _ sev tolerance =>
    let subtotal := invoice_data.subtotal.getD 0
    let tax := invoice_data.tax.getD 0
    let total := invoice_data.total.getD 0
    if subtotal = 0 ∨ total = 0 then
      ⟨rid, true, "Skipped check due to missing values", sev⟩
    else
      let expected_total := subtotal + tax
      if |expected_total - total| ≤ tolerance then
        ⟨rid, true, "Total ($" ++ fmt2 total ++ ") matches subtotal ($" ++
          fmt2 subtotal ++ ") + tax ($" ++ fmt2 tax ++ ")", sev⟩
      else
        ⟨rid, false, "Total ($" ++ fmt2 total ++ ") doesn" ++ apos ++
          "t match subtotal ($" ++ fmt2 subtotal ++ ") + tax ($" ++
          fmt2 tax ++ ") = $" ++ fmt2 expected_total, sev⟩
  | .lineItemsSum rid _ sev tolerance =>
    let subtotal := invoice_data.subtotal.getD 0
    let line_items := invoice_data.line_items.getD []
    if line_items = [] ∨ subtotal = 0 then
      ⟨rid, true, "Skipped check due to missing values", sev⟩
    else
      let line_sum := (line_items.map
        (fun item => item.price.getD 0 * item.quantity.getD 1)).sum
      if |line_sum - subtotal| ≤ tolerance then
        ⟨rid, true, "Line items sum ($" ++ fmt2 line_sum ++
          ") matches subtotal ($" ++ fmt2 subtotal ++ ")", sev⟩
      else
        ⟨rid, false, "Line items sum ($" ++ fmt2 line_sum ++ ") doesn" ++
          apos ++ "t match subtotal ($" ++ fmt2 subtotal ++ ")", sev⟩
  | .dateValidity rid _ sev max_age_days allow_future_days =>
    let date_str := invoice_data.date.getD ""
    if date_str = "" then
      ⟨rid, false, "Invoice is missing a date", sev⟩
    else
      match parseDate date_str with
      | none =>
        ⟨rid, false, "Invalid date format: " ++ date_str ++
          ". Expected format is YYYY-MM-DD", sev⟩
      | some ymd =>
        let invoice_date : ℚ := (dateNum ymd : ℚ)
        if invoice_date > now + (allow_future_days : ℚ) then
          ⟨rid, false, "Invoice date " ++ date_str ++
            " is too far in the future", sev⟩
        else if invoice_date < now - (max_age_days : ℚ) then
          ⟨rid, false, "Invoice date " ++ date_str ++ " is too old (more than " ++
            toString max_age_days ++ " days)", sev⟩
        else
          ⟨rid, true, "Invoice date " ++ date_str ++ " is valid", sev⟩
  | .requiredFields rid _ sev required_fields =>
    let missing_fields := required_fields.filter (fieldMissing invoice_data)
    if missing_fields ≠ [] then
      ⟨rid, false, "Invoice is missing required fields: " ++
        String.intercalate ", " missing_fields, sev⟩
    else
      ⟨rid, true, "Invoice has all required fields", sev⟩
  | .maxAmount rid _ sev rule_max =>
    let total := invoice_data.total.getD 0
    let max_amount :=
      match context with
      | some c =>
        match c.policy_data with
        | some pd => match pd.max_amount with | some a => a | none => rule_max
        | none => rule_max
      | none => rule_max
    if total > max_amount then
      ⟨rid, false, "Invoice total ($" ++ fmt2 total ++
        ") exceeds maximum allowed amount ($" ++ fmt2 max_amount ++ ")", sev⟩
    else
      ⟨rid, true, "Invoice total ($" ++ fmt2 total ++
        ") is within allowed limit", sev⟩
  | .allowedCategories rid _ sev rule_allowed =>
    let line_items := invoice_data.line_items.getD []
    if line_items = [] then
      ⟨rid, true, "No line items to check", sev⟩
    else
      let allowed_categories :=
        match context with
        | some c =>
          match c.policy_data with
          | some pd =>
            match pd.allowed_categories with
            | some l => l
            | none => rule_allowed
          | none => rule_allowed
        | none => rule_allowed
      let allowed_lower := allowed_categories.map String.toLower
      let unauthorized := dedupKeepFirst (line_items.filterMap (fun item =>
        let category := (item.category.getD "").toLower
        if category ≠ "" ∧ ¬ allowed_lower.contains category then some category
        else none))
      if unauthorized ≠ [] then
        ⟨rid, false, "Invoice contains unauthorized categories: " ++
          String.intercalate ", " unauthorized, sev⟩
      else
        ⟨rid, true, "All line item categories are allowed", sev⟩
  | .maxItemPrice rid _ sev rule_prices =>
    let line_items := invoice_data.line_items.getD []
    if line_items = [] then
      ⟨rid, true, "No line items to check", sev⟩
    else
      let max_prices :=
        match context with
        | some c =>
          match c.policy_data with
          | some pd =>
            match pd.max_item_prices with
            | some l => l
            | none => rule_prices
          | none => rule_prices
        | none => rule_prices
      let violations : List (String × String × ℚ × ℚ) := line_items.filterMap (fun item =>
        let category := (item.category.getD "").toLower
        let price := item.price.getD 0
        match max_prices.lookup category with
        | some mp => if price > mp then
            some (item.description.getD "Unknown", category, price, mp)
          else none
        | none => none)
      if violations ≠ [] then
        let violation_details := String.intercalate ", " (violations.map
          (fun v => v.1 ++ " ($" ++ fmt2 v.2.2.1 ++ " > $" ++ fmt2 v.2.2.2 ++ ")"))
        ⟨rid, false, "Line items exceed maximum price for their category: " ++
          violation_details, sev⟩
      else
        ⟨rid, true,
          "All line items are within price limits for their categories", sev⟩
  | .custom rid _ sev check_func =>
    let pm := check_func invoice_data context
    ⟨rid, pm.1, pm.2, sev⟩

/-- A named, ordered set of audit rules (class RuleSet). -/
structure RuleSet where
  name : String
  description : String
  rules : List Rule

/-- The severity tallies over failed results (keys high/medium/low of the
severity_counts dict). -/
structure SeverityCounts where
  high : Nat
  medium : Nat
  low : Nat
deriving DecidableEq, Repr

/-- One pass of the severity-counting loop of RuleSet.audit_invoice: a
failed result bumps the counter named by its lower-cased severity, when
that name is one of the three keys. -/
def bumpSeverity (sc : SeverityCounts) (r : AuditResult) : SeverityCounts :=
  if r.passed then sc
  else if r.severity.toLower = "high" then { sc with high := sc.high + 1 }
  else if r.severity.toLower = "medium" then { sc with medium := sc.medium + 1 }
  else if r.severity.toLower = "low" then { sc with low := sc.low + 1 }
  else sc

/-- The dict returned by RuleSet.audit_invoice (timestamp omitted). -/
structure AuditReport where
  invoice_id : String
  ruleset_name : String
  total_rules : Nat
  passed_rules : Nat
  failed_rules : Nat
  severity_counts : SeverityCounts
  results : List AuditResult

/-- RuleSet.audit_invoice: run every rule in order, collect the results,
and aggregate (passed count, failed count, severity tallies of failures). -/
def RuleSet.audit_invoice (now : ℚ) (rs : RuleSet) (invoice_data : Invoice)
    (context : Option Context) : AuditReport :=
  let results := rs.rules.map (fun r => Rule.check now r invoice_data context)
  let passed := (results.filter (fun r => r.passed)).length
  let failed := results.length - passed
  let severity_counts := results.foldl bumpSeverity ⟨0, 0, 0⟩
  { invoice_id := invoice_data.invoice_id.getD "UNKNOWN",
    ruleset_name := rs.name,
    total_rules := rs.rules.length,
    passed_rules := passed,
    failed_rules := failed,
    severity_counts := severity_counts,
    results := results }

/-- The keyword arguments a serialized rule entry can pass to a rule
constructor; `none` marks an absent key. -/
structure Kwargs where
  rule_id : Option String := none
  description : Option String := none
  severity : Option String := none
  tolerance : Option ℚ := none
  max_age_days : Option ℤ := none
  allow_future_days : Option ℤ := none
  required_fields : Option (List String) := none
  max_amount : Option ℚ := none
  allowed_categories : Option (List String) := none
  max_prices : Option (List (String × ℚ)) := none
deriving DecidableEq, Repr

/-- A serialized rule entry: the `type` / `rule_type` tags plus the
remaining keys, which from_dict forwards as keyword arguments. -/
structure RuleEntry where
  type : Option String := none
  rule_type : Option String := none
  params : Kwargs := {}
deriving DecidableEq, Repr

/-- The dict representation of a rule set. -/
structure RuleSetDict where
  name : Option String := none
  description : Option String := none
  rules : Option (List RuleEntry) := none
deriving DecidableEq, Repr

/-- Python `x or default` on an optional list-valued keyword argument:
the default also replaces an explicit empty list. -/
def orDefaultList (v : Option (List String)) (d : List String) : List String :=
  match v with
  | some l => if l = [] then d else l
  | none => d

/-- The keys of RuleRegistry._rules. -/
def RuleRegistry.registeredTypes : List String :=
  ["total_matches_calculation", "line_items_sum", "date_validity",
   "required_fields", "max_amount", "allowed_categories", "max_item_price"]

/-- RuleRegistry.create_rule: instantiate the registered class for a type
tag with the given keyword arguments, applying each constructor's default
values; None when the tag is not registered. -/
def RuleRegistry.create_rule (rule_type : String) (k : Kwargs) : Option Rule :=
  if rule_type = "total_matches_calculation" then
    some (.totalMatchesCalculation (k.rule_id.getD "total_matches_calculation")
      (k.description.getD "Invoice total should match subtotal + tax")
      (k.severity.getD "medium") (k.tolerance.getD 0.01))
  else if rule_type = "line_items_sum" then
    some (.lineItemsSum (k.rule_id.getD "line_items_sum")
      (k.description.getD "Line items should sum to subtotal")
      (k.severity.getD "medium") (k.tolerance.getD 0.01))
  else if rule_type = "date_validity" then
    some (.dateValidity (k.rule_id.getD "date_validity")
      (k.description.getD "Invoice date should be valid and within acceptable range")
      (k.severity.getD "medium") (k.max_age_days.getD 365)
      (k.allow_future_days.getD 0))
  else if rule_type = "required_fields" then
    some (.requiredFields (k.rule_id.getD "required_fields")
      (k.description.getD "Invoice should have all required fields")
      (k.severity.getD "high")
      (orDefaultList k.required_fields ["invoice_id", "vendor", "date", "total"]))
  else if rule_type = "max_amount" then
    some (.maxAmount (k.rule_id.getD "max_amount")
      (k.description.getD "Invoice total should not exceed maximum amount")
      (k.severity.getD "high") (k.max_amount.getD 5000))
  else if rule_type = "allowed_categories" then
    some (.allowedCategories (k.rule_id.getD "allowed_categories")
      (k.description.getD "Line items should have allowed categories")
      (k.severity.getD "medium") (k.allowed_categories.getD []))
  else if rule_type = "max_item_price" then
    some (.maxItemPrice (k.rule_id.getD "max_item_price")
      (k.description.getD "Line items should not exceed maximum price for their category")
      (k.severity.getD "medium") (k.max_prices.getD []))
  else none

/-- The Python class name of a rule, as AuditRule.to_dict writes into the
`type` key via self.__class__.__name__. -/
def Rule.className : Rule → String
  | .totalMatchesCalculation .. => "TotalMatchesCalculationRule"
  | .lineItemsSum .. => "LineItemsSumRule"
  | .dateValidity .. => "DateValidityRule"
  | .requiredFields .. => "RequiredFieldsRule"
  | .maxAmount .. => "MaxAmountRule"
  | .allowedCategories .. => "AllowedCategoriesRule"
  | .maxItemPrice .. => "MaxItemPriceRule"
  | .custom .. => "CustomRule"

/-- AuditRule.to_dict: exactly the four keys rule_id, description,
severity and type (the class name); no type-specific parameter is
serialized. -/
def Rule.to_dict (r : Rule) : RuleEntry :=
  { type := some r.className,
    params := { rule_id := some r.rule_id,
                description := some r.description,
                severity := some r.severity } }

/-- RuleSet.to_dict. -/
def RuleSet.to_dict (rs : RuleSet) : RuleSetDict :=
  { name := some rs.name,
    description := some rs.description,
    rules := some (rs.rules.map Rule.to_dict) }

/-- The effective type tag of a rule entry:
`rule_data.get("type") or rule_data.get("rule_type")`. -/
def effectiveType (e : RuleEntry) : Option String :=
  match e.type with
  | some t => if t = "" then e.rule_type else some t
  | none => e.rule_type

/-- RuleSet.from_dict: entries without a truthy type tag are skipped
(`continue`), and entries whose tag the registry does not know yield
create_rule = None and are likewise skipped; the rest are appended in
order. -/
def RuleSet.from_dict (d : RuleSetDict) : RuleSet :=
  { name := d.name.getD "Unnamed Rule Set",
    description := d.description.getD "",
    rules := (d.rules.getD []).filterMap (fun e =>
      match effectiveType e with
      | none => none
      | some t => if t = "" then none else RuleRegistry.create_rule t e.params) }

/-- RuleSet.from_json applied to RuleSet.to_json: to_json is
json.dumps of to_dict and from_json is from_dict of json.loads, and
json.loads inverts json.dumps on these dicts, so the composite is
from_dict after to_dict. -/
def RuleSet.roundTripJson (rs : RuleSet) : RuleSet :=
  RuleSet.from_dict (RuleSet.to_dict rs)

/-- State of class DuplicateDetector: the invoice_history dict, the
invoice_hashes dict and the vendor_invoices buckets, each in insertion
order. -/
structure Detector where
  invoice_history : List (String × Invoice)
  invoice_hashes : List (String × String)
  vendor_invoices : List (String × List String)
deriving DecidableEq, Repr

namespace DuplicateDetector

/-- Python dict assignment `d[k] = v`: replace in place when the key
exists, else append. -/
def dictInsert (k : String) (v : α) (l : List (String × α)) : List (String × α) :=
  if l.any (fun p => p.1 = k) then
    l.map (fun p => if p.1 = k then (k, v) else p)
  else l ++ [(k, v)]

/-- defaultdict(list) append `d[k].append(x)`: append to the bucket,
creating it when absent. -/
def bucketAppend (k x : String) (l : List (String × List String)) :
    List (String × List String) :=
  if l.any (fun p => p.1 = k) then
    l.map (fun p => if p.1 = k then (p.1, p.2 ++ [x]) else p)
  else l ++ [(k, [x])]

/-- generate_invoice_hash: md5 hexdigest of the canonical string
"id-vendor_lowercased-total_to_2_decimals-date".  The digest function is
a parameter; every property proved below holds for any digest, hence for
the real md5. -/
def generate_invoice_hash (md5 : String → String) (invoice_data : Invoice) : String :=
  md5 (invoice_data.invoice_id.getD "" ++ "-" ++
    (invoice_data.vendor.getD "").toLower ++ "-" ++
    fmt2 (invoice_data.total.getD 0) ++ "-" ++
    invoice_data.date.getD "")

/-- The duplicate verdict dict; keys absent from a given return value are
`none` / `[]`. -/
structure Verdict where
  is_duplicate : Bool
  reason : String
  duplicate_type : Option String := none
  confidence : ℚ
  matched_invoice_id : Option String := none
  similar_invoices : List (String × ℚ × Invoice) := []
deriving DecidableEq, Repr

/-- Similarity of one pair of line items: weighted blend of description
ratio (difflib's ratio on the lower-cased descriptions, consulted only
when both are non-empty; passed in as the `ratio` parameter), relative
price closeness and exact quantity match. -/
def itemSimilarity (ratio : String → String → ℚ) (item1 item2 : LineItem) : ℚ :=
  let desc1 := (item1.description.getD "").toLower
  let desc2 := (item2.description.getD "").toLower
  let desc_sim := if desc1 ≠ "" ∧ desc2 ≠ "" then ratio desc1 desc2 else 0
  let price1 := item1.price.getD 0
  let price2 := item2.price.getD 0
  let price_sim :=
    if price1 = 0 ∧ price2 = 0 then (1 : ℚ)
    else if price1 = 0 ∨ price2 = 0 then 0
    else
      let price_diff := |price1 - price2| / max price1 price2
      if price_diff < 0.01 then 1 else max 0 (1 - price_diff)
  let qty_sim : ℚ := if item1.quantity.getD 0 = item2.quantity.getD 0 then 1 else 0
  desc_sim * 0.5 + price_sim * 0.3 + qty_sim * 0.2

/-- The vendor sub-score: exact case-insensitive match. -/
def vendorScore (invoice1 invoice2 : Invoice) : ℚ :=
  if (invoice1.vendor.getD "").toLower = (invoice2.vendor.getD "").toLower then 1 else 0

/-- The total sub-score: both zero scores 1, exactly one zero scores 0,
else 1 within 1% relative difference and linear decay beyond. -/
def totalScore (invoice1 invoice2 : Invoice) : ℚ :=
  let total1 := invoice1.total.getD 0
  let total2 := invoice2.total.getD 0
  if total1 = 0 ∧ total2 = 0 then 1
  else if total1 = 0 ∨ total2 = 0 then 0
  else
    let diff_pct := |total1 - total2| / max total1 total2
    if diff_pct < 0.01 then 1 else max 0 (1 - diff_pct)

/-- The date sub-score: 1 on equal strings, else linear decay of the day
difference over a 30-day window when both parse, else 0. -/
def dateScore (invoice1 invoice2 : Invoice) : ℚ :=
  let date1 := invoice1.date.getD ""
  let date2 := invoice2.date.getD ""
  if date1 = date2 then 1
  else if date1 ≠ "" ∧ date2 ≠ "" then
    match parseDate date1, parseDate date2 with
    | some d1, some d2 =>
      let days_diff : ℚ := |(dateNum d1 : ℚ) - (dateNum d2 : ℚ)|
      if days_diff = 0 then 1 else max 0 (1 - days_diff / 30)
    | _, _ => 0
  else 0

/-- The line-items sub-score: both lists empty scores 1, exactly one
empty scores 0; otherwise 30% count similarity plus 70% of the average,
over the FIRST invoice's items, of each item's best match among the
second invoice's items. -/
def lineItemsScore (ratio : String → String → ℚ) (invoice1 invoice2 : Invoice) : ℚ :=
  let line_items1 := invoice1.line_items.getD []
  let line_items2 := invoice2.line_items.getD []
  if line_items1 = [] ∧ line_items2 = [] then 1
  else if line_items1 = [] ∨ line_items2 = [] then 0
  else
    let count_similarity : ℚ := 1 - min 1
      ((|(line_items1.length : ℚ) - (line_items2.length : ℚ)|) /
        max (line_items1.length : ℚ) (line_items2.length : ℚ))
    let item_similarities := line_items1.map (fun item1 =>
      line_items2.foldl (fun best item2 => max best (itemSimilarity ratio item1 item2)) 0)
    let content_similarity :=
      if item_similarities ≠ [] then item_similarities.sum / (item_similarities.length : ℚ)
      else 0
    count_similarity * 0.3 + content_similarity * 0.7

/-- calculate_invoice_similarity: the weighted average of the four
sub-scores with weights vendor 0.2, total 0.3, date 0.2, line_items 0.3. -/
def calculate_invoice_similarity (ratio : String → String → ℚ)
    (invoice1 invoice2 : Invoice) : ℚ :=
  vendorScore invoice1 invoice2 * 0.2 + totalScore invoice1 invoice2 * 0.3 +
    dateScore invoice1 invoice2 * 0.2 + lineItemsScore ratio invoice1 invoice2 * 0.3

/-- Lookup of `self.invoice_history[invoice_id]` (always present at the
call sites, which iterate over keys of the history or over vendor
buckets). -/
def histLookup (self : Detector) (invoice_id : String) : Invoice :=
  (((self.invoice_history.find? (fun p => p.1 = invoice_id)).map Prod.snd)).getD default

/-- find_similar_invoices, in state-passing form: the method reads the
vendor bucket (falling back to all history keys when the bucket is absent
or empty), scores each candidate other than the queried id itself, keeps
those at or above the threshold, sorts by similarity descending (stable,
like Python list.sort) and truncates; it writes no field of self. -/
def find_similar_invoices (ratio : String → String → ℚ) (self : Detector)
    (invoice_data : Invoice) (threshold : ℚ) (max_results : Nat) :
    Detector × List (String × ℚ × Invoice) :=
  let vendor := (invoice_data.vendor.getD "UNKNOWN").toLower
  let bucket := (((self.vendor_invoices.find? (fun p => p.1 = vendor)).map Prod.snd)).getD []
  let candidate_ids :=
    if bucket = [] then self.invoice_history.map Prod.fst else bucket
  let results : List (String × ℚ × Invoice) := candidate_ids.filterMap (fun invoice_id =>
    if invoice_data.invoice_id = some invoice_id then none
    else
      let stored_invoice := histLookup self invoice_id
      let similarity := calculate_invoice_similarity ratio invoice_data stored_invoice
      if similarity ≥ threshold then some (invoice_id, similarity, stored_invoice)
      else none)
  (self, (results.mergeSort (fun a b => decide (b.2.1 ≤ a.2.1))).take max_results)

/-- check_exact_duplicate, in state-passing form: an id already in the
history wins with confidence 1.0; else the first stored invoice with the
same content hash wins with confidence 1.0; else not a duplicate.  The
method writes no field of self. -/
def check_exact_duplicate (md5 : String → String) (self : Detector)
    (invoice_id : String) (invoice_data : Invoice) : Detector × Verdict :=
  if self.invoice_history.any (fun p => p.1 = invoice_id) then
    (self,
      { is_duplicate := true,
        reason := "Invoice ID " ++ invoice_id ++ " already exists in the system",
        duplicate_type := some "exact_id_match",
        confidence := 1,
        matched_invoice_id := some invoice_id })
  else
    let invoice_hash := generate_invoice_hash md5 invoice_data
    match self.invoice_hashes.find? (fun p => p.2 = invoice_hash) with
    | some stored =>
      (self,
        { is_duplicate := true,
          reason := "Invoice content exactly matches existing invoice " ++ stored.1,
          duplicate_type := some "exact_content_match",
          confidence := 1,
          matched_invoice_id := some stored.1 })
    | none =>
      (self, { is_duplicate := false, reason := "No exact duplicates found",
               confidence := 0 })

/-- check_duplicate, in state-passing form: the exact check first, then
the similarity search with max_results 5; the best similar candidate, if
any, gives the verdict. -/
def check_duplicate (ratio : String → String → ℚ) (md5 : String → String)
    (self : Detector) (invoice_data : Invoice) (similarity_threshold : ℚ) :
    Detector × Verdict :=
  let invoice_id := invoice_data.invoice_id.getD "UNKNOWN"
  let s1 := check_exact_duplicate md5 self invoice_id invoice_data
  if s1.2.is_duplicate then s1
  else
    let s2 := find_similar_invoices ratio s1.1 invoice_data similarity_threshold 5
    match s2.2 with
    | [] =>
      (s2.1, { is_duplicate := false, reason := "No duplicates found", confidence := 0 })
    | best :: rest =>
      (s2.1,
        { is_duplicate := true,
          reason := "Invoice is very similar to existing invoice " ++ best.1 ++
            " (similarity: " ++ fmt2 best.2.1 ++ ")",
          duplicate_type := some "similar_content",
          confidence := best.2.1,
          matched_invoice_id := some best.1,
          similar_invoices := best :: rest })

/-- add_invoice: store the invoice under its id, store its hash, and
append the id to its vendor bucket. -/
def add_invoice (md5 : String → String) (self : Detector)
    (invoice_id : String) (invoice_data : Invoice) : Detector :=
  { invoice_history := dictInsert invoice_id invoice_data self.invoice_history,
    invoice_hashes :=
      dictInsert invoice_id (generate_invoice_hash md5 invoice_data) self.invoice_hashes,
    vendor_invoices :=
      bucketAppend ((invoice_data.vendor.getD "UNKNOWN").toLower) invoice_id
        self.vendor_invoices }

/-- The ordered pairs (element i, element j) with i < j, in the order of
the source's nested index loops. -/
def allPairs : List α → List (α × α)
  | [] => []
  | x :: xs => (xs.map fun y => (x, y)) ++ allPairs xs

/-- First cluster index containing an id, as the inner search loop of
get_duplicate_clusters finds it. -/
def findClusterIdx (clusters : List (Finset String)) (a : String) : Option Nat :=
  clusters.findIdx? (fun c => decide (a ∈ c))

/-- One merge step of get_duplicate_clusters on a similar pair: locate the
clusters of the two ids, and when they differ, pour the second into the
first and delete the second.  (When an id were in no cluster the source
would fault on a None index; from the reachable initial states every id is
in exactly one cluster, so that branch is unreachable and modelled as a
no-op.) -/
def mergePair (clusters : List (Finset String)) (a b : String) :
    List (Finset String) :=
  match findClusterIdx clusters a, findClusterIdx clusters b with
  | some i, some j =>
    if i ≠ j then
      (clusters.set i (clusters.getD i ∅ ∪ clusters.getD j ∅)).eraseIdx j
    else clusters
  | _, _ => clusters

/-- get_duplicate_clusters: start from singleton clusters of the history
keys, merge the clusters of every pair scoring at or above the threshold
(pairs enumerated by the nested index loops), and keep the clusters with
more than one member.  Clusters are Python sets, modelled as finsets. -/
def get_duplicate_clusters (ratio : String → String → ℚ) (self : Detector)
    (similarity_threshold : ℚ) : List (Finset String) :=
  let clusters0 := self.invoice_history.map (fun p => ({p.1} : Finset String))
  let similar := (allPairs self.invoice_history).filter (fun q =>
    decide (calculate_invoice_similarity ratio q.1.2 q.2.2 ≥ similarity_threshold))
  let final := similar.foldl (fun cs q => mergePair cs q.1.1 q.2.1) clusters0
  final.filter (fun c => decide (1 < c.card))

end DuplicateDetector

/-! Concrete inputs used by counterexamples and witnesses. -/

/-- A trivial description-ratio function; the concrete invoices below have
empty descriptions, so the source never consults difflib on them and any
ratio function gives the same result. -/
def ratioZero : String → String → ℚ := fun _ _ => 0

/-- The identity used as a stand-in digest in closed witness statements
(the theorems hold for every digest function). -/
def md5Id : String → String := fun s => s

/-- A line item with empty description, price 10, quantity 1. -/
def itemTen : LineItem := { description := some "", price := some 10, quantity := some 1 }

/-- A line item with empty description, price 0, quantity 2. -/
def itemZero : LineItem := { description := some "", price := some 0, quantity := some 2 }

/-- Invoice with one line item; same vendor, date and total as simInvB. -/
def simInvA : Invoice :=
  { invoice_id := some "A", vendor := some "v", date := some "2023-01-01",
    total := some 100, line_items := some [itemTen] }

/-- Invoice with two line items; same vendor, date and total as simInvA. -/
def simInvB : Invoice :=
  { invoice_id := some "B", vendor := some "v", date := some "2023-01-01",
    total := some 100, line_items := some [itemTen, itemZero] }

/-- Invoice from vendor acme with no line items and total 100. -/
def emptyInvA : Invoice := { vendor := some "acme", total := some 100 }

/-- Invoice from vendor zeta with no line items and total 50. -/
def emptyInvB : Invoice := { vendor := some "zeta", total := some 50 }

/-- Invoice with total 1296.00 (the spec's concrete MaxAmount scenario). -/
def invTotal1296 : Invoice := { total := some 1296 }

/-- Audit context whose policy caps the amount at 1000. -/
def ctxPolicy1000 : Context := { policy_data := some { max_amount := some 1000 } }

/-- Invoice with subtotal 1200.00, tax 96.00, total 1300.00 (the spec's
concrete TotalMatchesCalculation scenario). -/
def invCalcOff : Invoice :=
  { invoice_id := some "INV-1", subtotal := some 1200, tax := some 96, total := some 1300 }

/-- Invoice dated 2023-05-15. -/
def invDated : Invoice := { date := some "2023-05-15" }

/-- Stored invoice with total 100 under id X. -/
def invX100 : Invoice := { invoice_id := some "X", vendor := some "acme", total := some 100 }

/-- Queried invoice reusing id X with a different total. -/
def invX50 : Invoice := { invoice_id := some "X", vendor := some "acme", total := some 50 }

/-- Detector state holding invX100 under id X. -/
def detWithX : Detector :=
  { invoice_history := [("X", invX100)],
    invoice_hashes := [("X", DuplicateDetector.generate_invoice_hash md5Id invX100)],
    vendor_invoices := [("acme", ["X"])] }

/-- Detector state holding two blank invoices (which are maximally
similar) under ids a and b. -/
def detPair : Detector :=
  { invoice_history := [("a", {}), ("b", {})],
    invoice_hashes :=
      [("a", DuplicateDetector.generate_invoice_hash md5Id {}),
       ("b", DuplicateDetector.generate_invoice_hash md5Id {})],
    vendor_invoices := [("unknown", ["a", "b"])] }

/-- A rule set holding one built-in rule with a custom tolerance. -/
def cexRuleSet : RuleSet :=
  { name := "s", description := "d",
    rules := [.totalMatchesCalculation "total_matches_calculation" "x" "medium" 0.05] }

/-- A serialized rule set whose single entry has an unregistered type. -/
def cexRuleSetDict : RuleSetDict :=
  { name := some "n", rules := some [{ type := some "bogus_rule" }] }

/-! Theorems. -/

/-- Claim C6: for every invoice with non-zero subtotal and total,
TotalMatchesCalculationRule.check passes exactly when
|(subtotal + tax) - total| ≤ tolerance, and on failure the message ends
with the computed expected total subtotal + tax; when subtotal or total is
zero the rule passes with the skipped message. -/
theorem claim_C6_totalMatches_check (now : ℚ) (inv : Invoice) (ctx : Option Context)
    (rid desc sev : String) (tol : ℚ) :
    ((inv.subtotal.getD 0 = 0 ∨ inv.total.getD 0 = 0) →
      (Rule.check now (.totalMatchesCalculation rid desc sev tol) inv ctx).passed = true ∧
      (Rule.check now (.totalMatchesCalculation rid desc sev tol) inv ctx).message =
        "Skipped check due to missing values") ∧
    (inv.subtotal.getD 0 ≠ 0 → inv.total.getD 0 ≠ 0 →
      ((Rule.check now (.totalMatchesCalculation rid desc sev tol) inv ctx).passed = true ↔
        |inv.subtotal.getD 0 + inv.tax.getD 0 - inv.total.getD 0| ≤ tol) ∧
      ((Rule.check now (.totalMatchesCalculation rid desc sev tol) inv ctx).passed = false →
        ∃ s, (Rule.check now (.totalMatchesCalculation rid desc sev tol) inv ctx).message =
          s ++ fmt2 (inv.subtotal.getD 0 + inv.tax.getD 0))) := by
  simp only [Rule.check]
  constructor
  · intro h
    rw [if_pos h]
    exact ⟨rfl, rfl⟩
  · intro h1 h2
    rw [if_neg (by tauto)]
    by_cases hle : |inv.subtotal.getD 0 + inv.tax.getD 0 - inv.total.getD 0| ≤ tol
    · rw [if_pos hle]
      refine ⟨by simpa using hle, ?_⟩
      intro hp
      exact absurd hp (by simp)
    · rw [if_neg hle]
      refine ⟨by simpa using hle, ?_⟩
      intro _
      exact ⟨"Total ($" ++ fmt2 (inv.total.getD 0) ++ ") doesn" ++ apos ++
        "t match subtotal ($" ++ fmt2 (inv.subtotal.getD 0) ++ ") + tax ($" ++
        fmt2 (inv.tax.getD 0) ++ ") = $", by simp⟩

/-- Witness for C6 at the spec's concrete scenario: subtotal 1200.00, tax
96.00, total 1300.00 fails, with the message ending in the expected total
1296.00. -/
theorem claim_C6_totalMatches_check_witness :
    (Rule.check 0 (.totalMatchesCalculation "total_matches_calculation"
      "Invoice total should match subtotal + tax" "medium" 0.01) invCalcOff none).passed
        = false ∧
    (∃ s, (Rule.check 0 (.totalMatchesCalculation "total_matches_calculation"
      "Invoice total should match subtotal + tax" "medium" 0.01) invCalcOff none).message
        = s ++ fmt2 ((1200 : ℚ) + 96)) := by
  have hp : (Rule.check 0 (.totalMatchesCalculation "total_matches_calculation"
      "Invoice total should match subtotal + tax" "medium" 0.01) invCalcOff none).passed
        = false := by
    norm_num [Rule.check, invCalcOff]
  have h := claim_C6_totalMatches_check 0 invCalcOff none "total_matches_calculation"
    "Invoice total should match subtotal + tax" "medium" 0.01
  exact ⟨hp, (h.2 (by norm_num [invCalcOff]) (by norm_num [invCalcOff])).2 hp⟩

/-- Counterexample to claim C4 as stated: with a rule maxAmount of 5000, a
context policy max_amount of 1000 and an invoice total of 1296.00, the
check fails although 1296 ≤ max(1000, 5000); so "passes exactly when total
≤ max(policy maxAmount, rule maxAmount)" is false of the code. -/
theorem claim_C4_maxAmount_spec_formula_cex :
    ¬ (((Rule.check 0 (.maxAmount "max_amount" "d" "high" 5000) invTotal1296
          (some ctxPolicy1000)).passed = true) ↔
        ((1296 : ℚ) ≤ max 1000 5000)) := by
  have hp : (Rule.check 0 (.maxAmount "max_amount" "d" "high" 5000) invTotal1296
      (some ctxPolicy1000)).passed = false := by
    norm_num [Rule.check, invTotal1296, ctxPolicy1000]
  rw [hp]
  norm_num

/-- Claim C4, amended: MaxAmountRule.check passes exactly when the invoice
total is at most the effective limit, where a policy max_amount present in
the context replaces the rule's own maxAmount (it does not take the
maximum of the two); in particular the rule-max-5000 / policy-1000 /
total-1296 scenario fails. -/
theorem claim_C4_maxAmount_check_passes_iff (now : ℚ) (inv : Invoice)
    (ctx : Option Context) (rid desc sev : String) (rule_max : ℚ) :
    (Rule.check now (.maxAmount rid desc sev rule_max) inv ctx).passed = true ↔
      inv.total.getD 0 ≤
        ((ctx.bind Context.policy_data).bind PolicyData.max_amount).getD rule_max := by
  have hM : ((ctx.bind Context.policy_data).bind PolicyData.max_amount).getD rule_max =
      (match ctx with
        | some c =>
          match c.policy_data with
          | some pd => match pd.max_amount with | some a => a | none => rule_max
          | none => rule_max
        | none => rule_max) := by
    rcases ctx with _ | c
    · rfl
    · rcases c with ⟨pd⟩
      rcases pd with _ | pd
      · rfl
      · rcases pd with ⟨ma, ac, mp⟩
        rcases ma with _ | a <;> rfl
  rw [hM]
  simp only [Rule.check]
  split
  · rename_i hgt
    simp only [Bool.false_eq_true, false_iff, not_le]
    exact hgt
  · rename_i hgt
    simp only [true_iff]
    exact not_lt.mp hgt

/-- Witness for amended C4 at the spec's concrete scenario: rule maxAmount
5000, policy max_amount 1000, total 1296.00 — the pass condition is
1296 ≤ 1000, which fails. -/
theorem claim_C4_maxAmount_check_passes_iff_witness :
    (Rule.check 0 (.maxAmount "max_amount" "d" "high" 5000) invTotal1296
        (some ctxPolicy1000)).passed = true ↔
      invTotal1296.total.getD 0 ≤
        (((some ctxPolicy1000).bind Context.policy_data).bind
          PolicyData.max_amount).getD 5000 :=
  claim_C4_maxAmount_check_passes_iff 0 invTotal1296 (some ctxPolicy1000)
    "max_amount" "d" "high" 5000

/-- Claim C8: DateValidityRule.check (a total function here, hence free of
exceptions) fails on a missing date with the fixed message, fails on an
unparsable date string, and on a parsed date passes exactly when the date
is at most allow_future_days after now and at most max_age_days before
now. -/
theorem claim_C8_dateValidity_check (now : ℚ) (inv : Invoice) (ctx : Option Context)
    (rid desc sev : String) (maxAge allowFut : ℤ) :
    ((inv.date.getD "" = "") →
      (Rule.check now (.dateValidity rid desc sev maxAge allowFut) inv ctx).passed = false ∧
      (Rule.check now (.dateValidity rid desc sev maxAge allowFut) inv ctx).message =
        "Invoice is missing a date") ∧
    (inv.date.getD "" ≠ "" → parseDate (inv.date.getD "") = none →
      (Rule.check now (.dateValidity rid desc sev maxAge allowFut) inv ctx).passed = false) ∧
    (∀ ymd, inv.date.getD "" ≠ "" → parseDate (inv.date.getD "") = some ymd →
      ((Rule.check now (.dateValidity rid desc sev maxAge allowFut) inv ctx).passed = true ↔
        ((dateNum ymd : ℚ) ≤ now + (allowFut : ℚ) ∧
          now - (maxAge : ℚ) ≤ (dateNum ymd : ℚ)))) := by
  simp only [Rule.check]
  refine ⟨fun h => ?_, fun h1 h2 => ?_, fun ymd h1 h2 => ?_⟩
  · rw [if_pos h]
    exact ⟨rfl, rfl⟩
  · rw [if_neg h1, h2]
  · rw [if_neg h1]
    split
    · rename_i heq
      rw [h2] at heq
      cases heq
    rename_i ymd2 heq
    rw [h2] at heq
    injection heq with hh
    subst hh
    by_cases hf : (dateNum ymd : ℚ) > now + (allowFut : ℚ)
    · rw [if_pos hf]
      simp only [Bool.false_eq_true, false_iff, not_and]
      intro hc
      exact absurd hf (not_lt.mpr hc)
    · rw [if_neg hf]
      by_cases ho : (dateNum ymd : ℚ) < now - (maxAge : ℚ)
      · rw [if_pos ho]
        simp only [Bool.false_eq_true, false_iff, not_and]
        intro _
        exact fun hc => absurd ho (not_lt.mpr hc)
      · rw [if_neg ho]
        simp only [true_iff]
        exact ⟨not_lt.mp hf, not_lt.mp ho⟩

/-- Witness for C8: the invoice dated 2023-05-15, checked with `now` the
same day and the default limits (max_age_days 365, allow_future_days 0),
passes. -/
theorem claim_C8_dateValidity_check_witness :
    (Rule.check ((dateNum (2023, 5, 15) : ℚ)) (.dateValidity "date_validity"
      "Invoice date should be valid and within acceptable range" "medium" 365 0)
      invDated none).passed = true := by
  have h := (claim_C8_dateValidity_check ((dateNum (2023, 5, 15) : ℚ)) invDated none
    "date_validity" "Invoice date should be valid and within acceptable range"
    "medium" 365 0).2.2 (2023, 5, 15) (by decide) (by decide)
  rw [h]
  constructor
  · norm_num
  · norm_num

/-- The severity-counting fold adds, to each starting tally, the number
of failed results whose lower-cased severity names that tally. -/
theorem foldl_bumpSeverity_eq (l : List AuditResult) (sc : SeverityCounts) :
    l.foldl bumpSeverity sc =
      ⟨sc.high + (l.filter (fun r => !r.passed && (r.severity.toLower == "high"))).length,
       sc.medium + (l.filter (fun r => !r.passed && (r.severity.toLower == "medium"))).length,
       sc.low + (l.filter (fun r => !r.passed && (r.severity.toLower == "low"))).length⟩ := by
  induction l generalizing sc with
  | nil => simp
  | cons r t ih =>
    rw [List.foldl_cons, ih]
    simp only [List.filter_cons, bumpSeverity]
    by_cases hp : r.passed
    · simp [hp]
    · by_cases hh : r.severity.toLower = "high"
      · have hm : ¬ r.severity.toLower = "medium" := by rw [hh]; decide
        have hl : ¬ r.severity.toLower = "low" := by rw [hh]; decide
        simp [hp, hh, hm, hl, SeverityCounts.mk.injEq]
        try omega
      · by_cases hm : r.severity.toLower = "medium"
        · have hl : ¬ r.severity.toLower = "low" := by rw [hm]; decide
          simp [hp, hh, hm, hl, SeverityCounts.mk.injEq]
          try omega
        · by_cases hl : r.severity.toLower = "low"
          · simp [hp, hh, hm, hl, SeverityCounts.mk.injEq]
            try omega
          · simp [hp, hh, hm, hl, SeverityCounts.mk.injEq]
            try omega

/-- Claim C9: audit_invoice runs every rule without short-circuiting and
reports the per-rule results in insertion order (the results list is
exactly the rule list mapped through check); total_rules is the number of
rules and equals passed_rules + failed_rules; the severity tallies count
exactly the failed results keyed by lower-cased severity high, medium and
low. -/
theorem claim_C9_audit_invoice (now : ℚ) (rs : RuleSet) (inv : Invoice)
    (ctx : Option Context) :
    (RuleSet.audit_invoice now rs inv ctx).total_rules = rs.rules.length ∧
    (RuleSet.audit_invoice now rs inv ctx).results =
      rs.rules.map (fun r => Rule.check now r inv ctx) ∧
    (RuleSet.audit_invoice now rs inv ctx).passed_rules +
      (RuleSet.audit_invoice now rs inv ctx).failed_rules =
      (RuleSet.audit_invoice now rs inv ctx).total_rules ∧
    (RuleSet.audit_invoice now rs inv ctx).severity_counts.high =
      ((RuleSet.audit_invoice now rs inv ctx).results.filter
        (fun r => !r.passed && (r.severity.toLower == "high"))).length ∧
    (RuleSet.audit_invoice now rs inv ctx).severity_counts.medium =
      ((RuleSet.audit_invoice now rs inv ctx).results.filter
        (fun r => !r.passed && (r.severity.toLower == "medium"))).length ∧
    (RuleSet.audit_invoice now rs inv ctx).severity_counts.low =
      ((RuleSet.audit_invoice now rs inv ctx).results.filter
        (fun r => !r.passed && (r.severity.toLower == "low"))).length := by
  refine ⟨rfl, rfl, ?_, ?_, ?_, ?_⟩
  · simp only [RuleSet.audit_invoice]
    have hle := List.length_filter_le (fun r => r.passed)
      (rs.rules.map (fun r => Rule.check now r inv ctx))
    have hlen : (rs.rules.map (fun r => Rule.check now r inv ctx)).length =
        rs.rules.length := List.length_map _ _
    omega
  · simp [RuleSet.audit_invoice, foldl_bumpSeverity_eq]
  · simp [RuleSet.audit_invoice, foldl_bumpSeverity_eq]
  · simp [RuleSet.audit_invoice, foldl_bumpSeverity_eq]

/-- Counterexample to claim C2 as stated: a rule set holding one
TotalMatchesCalculation rule with custom tolerance 0.05 does not survive
from_json after to_json — the reconstructed set has no rules at all, since
to_dict writes the class name "TotalMatchesCalculationRule" as the type
tag while the registry only knows "total_matches_calculation" (and to_dict
drops the tolerance as well). -/
theorem claim_C2_roundtrip_cex : RuleSet.roundTripJson cexRuleSet ≠ cexRuleSet := by
  intro h
  have h0 : (RuleSet.roundTripJson cexRuleSet).rules.length = 0 := rfl
  have h1 : cexRuleSet.rules.length = 1 := rfl
  rw [h, h1] at h0
  exact Nat.one_ne_zero h0

/-- Claim C2, amended: for every rule set, from_json after to_json
preserves the name and the description but returns an empty rule list —
every rule (of any built-in or custom type, with any parameters) is
dropped, because the serialized type tag is the Python class name, which
the registry (keyed by snake_case tags) does not know; type-specific
parameters are not serialized in the first place. -/
theorem claim_C2_roundtrip_drops_all_rules (rs : RuleSet) :
    RuleSet.roundTripJson rs = ⟨rs.name, rs.description, []⟩ := by
  simp only [RuleSet.roundTripJson, RuleSet.from_dict, RuleSet.to_dict, Option.getD_some]
  refine congrArg (RuleSet.mk rs.name rs.description) ?_
  rw [List.filterMap_map]
  rw [List.filterMap_eq_nil_iff]
  intro r _
  cases r <;> rfl

/-- Unregistered type tags make create_rule return None. -/
theorem create_rule_eq_none_of_not_registered (t : String) (k : Kwargs)
    (h : t ∉ RuleRegistry.registeredTypes) :
    RuleRegistry.create_rule t k = none := by
  simp only [RuleRegistry.registeredTypes, List.mem_cons, List.not_mem_nil, or_false,
    not_or] at h
  obtain ⟨h1, h2, h3, h4, h5, h6, h7⟩ := h
  simp [RuleRegistry.create_rule, h1, h2, h3, h4, h5, h6, h7]

/-- Counterexample to claim C3 as stated: deserializing a rule set dict
whose single rule entry has the unregistered type "bogus_rule" raises no
error and silently returns a rule set with an empty rule list. -/
theorem claim_C3_from_dict_unknown_type_cex :
    RuleSet.from_dict cexRuleSetDict = ⟨"n", "", []⟩ := rfl

/-- Claim C3, amended: RuleSet deserialization never fails on an
unregistered rule type; it silently skips every rule entry whose type tag
is missing, empty or not registered.  In particular a dict all of whose
entries have such tags deserializes to a rule set with the given name and
description and no rules. -/
theorem claim_C3_from_dict_skips_unknown (d : RuleSetDict)
    (h : ∀ e ∈ d.rules.getD [], ∀ t, effectiveType e = some t →
      t ∉ RuleRegistry.registeredTypes) :
    RuleSet.from_dict d =
      ⟨d.name.getD "Unnamed Rule Set", d.description.getD "", []⟩ := by
  simp only [RuleSet.from_dict]
  refine congrArg (RuleSet.mk _ _) ?_
  rw [List.filterMap_eq_nil_iff]
  intro e he
  rcases het : effectiveType e with _ | t
  · rfl
  · by_cases ht : t = ""
    · simp [ht]
    · simp only [ht, if_false, if_neg]
      exact create_rule_eq_none_of_not_registered t e.params (h e he t het)

/-- Witness for C3 at the concrete dict with one bogus-typed entry. -/
theorem claim_C3_from_dict_skips_unknown_witness :
    RuleSet.from_dict cexRuleSetDict =
      ⟨cexRuleSetDict.name.getD "Unnamed Rule Set",
        cexRuleSetDict.description.getD "", []⟩ := by
  refine claim_C3_from_dict_skips_unknown cexRuleSetDict ?_
  intro e he t het
  have he2 : e = { type := some "bogus_rule" } := by
    simpa [cexRuleSetDict] using he
  subst he2
  have ht : some t = some "bogus_rule" := by
    rw [← het]; rfl
  injection ht with ht2
  subst ht2
  decide

/-- The vendor sub-score is symmetric. -/
theorem vendorScore_comm (a b : Invoice) :
    DuplicateDetector.vendorScore a b = DuplicateDetector.vendorScore b a := by
  unfold DuplicateDetector.vendorScore
  rcases eq_or_ne ((a.vendor.getD "").toLower) ((b.vendor.getD "").toLower) with h | h
  · rw [if_pos h, if_pos h.symm]
  · rw [if_neg h, if_neg (Ne.symm h)]

/-- The total sub-score is symmetric. -/
theorem totalScore_comm (a b : Invoice) :
    DuplicateDetector.totalScore a b = DuplicateDetector.totalScore b a := by
  unfold DuplicateDetector.totalScore
  by_cases h1 : a.total.getD 0 = 0 <;> by_cases h2 : b.total.getD 0 = 0 <;>
    simp only [h1, h2, true_and, and_true, false_and, and_false, true_or, or_true,
      false_or, or_false, if_true, if_false, not_false_iff, if_neg, if_pos]
  · rw [abs_sub_comm, max_comm]

/-- The date sub-score is symmetric. -/
theorem dateScore_comm (a b : Invoice) :
    DuplicateDetector.dateScore a b = DuplicateDetector.dateScore b a := by
  unfold DuplicateDetector.dateScore
  rcases eq_or_ne (a.date.getD "") (b.date.getD "") with h | h
  · rw [if_pos h, if_pos h.symm]
  · rw [if_neg h, if_neg (Ne.symm h)]
    by_cases hne : a.date.getD "" ≠ "" ∧ b.date.getD "" ≠ ""
    · rw [if_pos hne, if_pos (And.intro hne.2 hne.1)]
      rcases hp1 : parseDate (a.date.getD "") with _ | d1 <;>
        rcases hp2 : parseDate (b.date.getD "") with _ | d2 <;>
        simp only [hp1, hp2]
      rw [abs_sub_comm ((dateNum d1 : ℚ)) ((dateNum d2 : ℚ))]
    · rw [if_neg hne, if_neg (fun hc => hne (And.intro hc.2 hc.1))]

/-- The line-items sub-score is symmetric whenever at least one of the two
line-item lists is empty (both empty score 1 both ways, exactly one empty
scores 0 both ways). -/
theorem lineItemsScore_comm_of_empty (ratio : String → String → ℚ) (a b : Invoice)
    (h : a.line_items.getD [] = [] ∨ b.line_items.getD [] = []) :
    DuplicateDetector.lineItemsScore ratio a b =
      DuplicateDetector.lineItemsScore ratio b a := by
  unfold DuplicateDetector.lineItemsScore
  rcases h with h | h <;>
    by_cases h2 : b.line_items.getD [] = [] <;>
    by_cases h1 : a.line_items.getD [] = [] <;>
    simp_all

/-- Counterexample to claim C1 as stated: the similarity is not symmetric
for arbitrary pairs.  simInvA and simInvB agree on vendor, total and date,
but simInvA has one line item and simInvB two (descriptions empty, so the
difflib ratio is never consulted); the best-match average runs over the
first argument's items only, giving 0.85 one way and 0.7975 the other. -/
theorem claim_C1_similarity_not_symmetric_cex :
    DuplicateDetector.calculate_invoice_similarity ratioZero simInvA simInvB ≠
      DuplicateDetector.calculate_invoice_similarity ratioZero simInvB simInvA := by
  have h1 : DuplicateDetector.calculate_invoice_similarity ratioZero simInvA simInvB
      = 17/20 := by
    norm_num +decide [DuplicateDetector.calculate_invoice_similarity,
      DuplicateDetector.vendorScore, DuplicateDetector.totalScore,
      DuplicateDetector.dateScore, DuplicateDetector.lineItemsScore,
      DuplicateDetector.itemSimilarity, simInvA, simInvB, itemTen, itemZero, ratioZero]
  have h2 : DuplicateDetector.calculate_invoice_similarity ratioZero simInvB simInvA
      = 319/400 := by
    norm_num +decide [DuplicateDetector.calculate_invoice_similarity,
      DuplicateDetector.vendorScore, DuplicateDetector.totalScore,
      DuplicateDetector.dateScore, DuplicateDetector.lineItemsScore,
      DuplicateDetector.itemSimilarity, simInvA, simInvB, itemTen, itemZero, ratioZero]
  rw [h1, h2]
  norm_num

/-- Claim C1, amended: calculate_invoice_similarity is symmetric for every
pair in which at least one invoice has an empty (or absent) line-item
list — this covers the spec's zero-total and empty-line-item edge cases,
the vendor, total and date sub-scores being symmetric for arbitrary
pairs — but not for arbitrary pairs: the line-item sub-score averages
best matches over the first invoice's items only (see the
counterexample). -/
theorem claim_C1_similarity_symm_of_empty_items (ratio : String → String → ℚ)
    (a b : Invoice)
    (h : a.line_items.getD [] = [] ∨ b.line_items.getD [] = []) :
    DuplicateDetector.calculate_invoice_similarity ratio a b =
      DuplicateDetector.calculate_invoice_similarity ratio b a := by
  unfold DuplicateDetector.calculate_invoice_similarity
  rw [vendorScore_comm, totalScore_comm, dateScore_comm,
    lineItemsScore_comm_of_empty ratio a b h]

/-- Witness for amended C1: two invoices with different vendors, different
non-zero totals and no line items get the same similarity in both
directions. -/
theorem claim_C1_similarity_symm_of_empty_items_witness :
    DuplicateDetector.calculate_invoice_similarity ratioZero emptyInvA emptyInvB =
      DuplicateDetector.calculate_invoice_similarity ratioZero emptyInvB emptyInvA :=
  claim_C1_similarity_symm_of_empty_items ratioZero emptyInvA emptyInvB
    (Or.inl (by decide))

/-- When the queried id is a key of the history, check_exact_duplicate
reports a duplicate with confidence 1. -/
theorem check_exact_of_id_mem (md5 : String → String) (d : Detector)
    (invoice_id : String) (inv : Invoice)
    (hany : d.invoice_history.any (fun p => p.1 = invoice_id) = true) :
    (DuplicateDetector.check_exact_duplicate md5 d invoice_id inv).2.is_duplicate = true ∧
    (DuplicateDetector.check_exact_duplicate md5 d invoice_id inv).2.confidence = 1 := by
  unfold DuplicateDetector.check_exact_duplicate
  rw [if_pos hany]
  exact ⟨rfl, rfl⟩

/-- Claim C7: when the queried invoice's id is already a key of the
detector's history, check_duplicate reports a duplicate with confidence
exactly 1, whatever the similarity threshold and however dissimilar the
stored invoice is. -/
theorem claim_C7_check_duplicate_exact_id (ratio : String → String → ℚ)
    (md5 : String → String) (d : Detector) (inv : Invoice) (thr : ℚ)
    (h : inv.invoice_id.getD "UNKNOWN" ∈ d.invoice_history.map Prod.fst) :
    (DuplicateDetector.check_duplicate ratio md5 d inv thr).2.is_duplicate = true ∧
    (DuplicateDetector.check_duplicate ratio md5 d inv thr).2.confidence = 1 := by
  have hany : d.invoice_history.any
      (fun p => p.1 = inv.invoice_id.getD "UNKNOWN") = true := by
    rw [List.any_eq_true]
    obtain ⟨x, hx, hxe⟩ := List.mem_map.mp h
    exact ⟨x, hx, by simpa using hxe⟩
  have hex := check_exact_of_id_mem md5 d (inv.invoice_id.getD "UNKNOWN") inv hany
  constructor <;> simp [DuplicateDetector.check_duplicate, hex.1, hex.2]

/-- Witness for C7: the detector holding invX100 (total 100) under id X,
queried with invX50 (same id X, total 50), reports a duplicate with
confidence 1, although the similarity of the two invoices is only 0.85. -/
theorem claim_C7_check_duplicate_exact_id_witness :
    ((DuplicateDetector.check_duplicate ratioZero md5Id detWithX invX50 0.8).2.is_duplicate
        = true ∧
      (DuplicateDetector.check_duplicate ratioZero md5Id detWithX invX50 0.8).2.confidence
        = 1) ∧
    DuplicateDetector.calculate_invoice_similarity ratioZero invX50 invX100 < 1 := by
  constructor
  · exact claim_C7_check_duplicate_exact_id ratioZero md5Id detWithX invX50 0.8
      (by decide)
  · have hs : DuplicateDetector.calculate_invoice_similarity ratioZero invX50 invX100
        = 17/20 := by
      norm_num +decide [DuplicateDetector.calculate_invoice_similarity,
        DuplicateDetector.vendorScore, DuplicateDetector.totalScore,
        DuplicateDetector.dateScore, DuplicateDetector.lineItemsScore,
        invX50, invX100, ratioZero]
    rw [hs]
    norm_num

/-- check_exact_duplicate writes no detector field. -/
theorem check_exact_duplicate_fst (md5 : String → String) (d : Detector)
    (invoice_id : String) (inv : Invoice) :
    (DuplicateDetector.check_exact_duplicate md5 d invoice_id inv).1 = d := by
  unfold DuplicateDetector.check_exact_duplicate
  split
  · rfl
  · dsimp only
    split <;> rfl

/-- find_similar_invoices writes no detector field. -/
theorem find_similar_invoices_fst (ratio : String → String → ℚ) (d : Detector)
    (inv : Invoice) (thr : ℚ) (mr : Nat) :
    (DuplicateDetector.find_similar_invoices ratio d inv thr mr).1 = d := rfl

/-- check_duplicate writes no detector field. -/
theorem check_duplicate_fst (ratio : String → String → ℚ) (md5 : String → String)
    (d : Detector) (inv : Invoice) (thr : ℚ) :
    (DuplicateDetector.check_duplicate ratio md5 d inv thr).1 = d := by
  unfold DuplicateDetector.check_duplicate
  dsimp only
  split
  · exact check_exact_duplicate_fst md5 d (inv.invoice_id.getD "UNKNOWN") inv
  · split <;> simp [find_similar_invoices_fst, check_exact_duplicate_fst]

/-- Replacement in place keeps the key reachable with the new value. -/
theorem lookup_map_replace (k : String) (v : α) :
    ∀ l : List (String × α), l.any (fun p => p.1 = k) = true →
      (l.map (fun p => if p.1 = k then (k, v) else p)).lookup k = some v := by
  intro l
  induction l with
  | nil => intro h; simp at h
  | cons hd t ih =>
    intro h
    simp only [List.map_cons]
    by_cases hh : hd.1 = k
    · rw [if_pos hh]
      simp [List.lookup]
    · rw [if_neg hh]
      have ht : t.any (fun p => p.1 = k) = true := by
        simpa [List.any_cons, hh] using h
      have hbeq : (k == hd.1) = false := by
        simp [Ne.symm hh]
      simp [List.lookup, hbeq, ih ht]

/-- Appending a fresh key makes it reachable with its value. -/
theorem lookup_append_fresh (k : String) (v : α) :
    ∀ l : List (String × α), l.any (fun p => p.1 = k) = false →
      (l ++ [(k, v)]).lookup k = some v := by
  intro l
  induction l with
  | nil => simp [List.lookup]
  | cons hd t ih =>
    intro h
    have hh : ¬ hd.1 = k := by
      intro hc
      simp [List.any_cons, hc] at h
    have ht : t.any (fun p => p.1 = k) = false := by
      simpa [List.any_cons, hh] using h
    have hbeq : (k == hd.1) = false := by
      simp [Ne.symm hh]
    simp [List.lookup, hbeq, ih ht]

/-- Python dict assignment makes the key map to the assigned value. -/
theorem lookup_dictInsert (k : String) (v : α) (l : List (String × α)) :
    (DuplicateDetector.dictInsert k v l).lookup k = some v := by
  unfold DuplicateDetector.dictInsert
  by_cases hany : l.any (fun p => p.1 = k) = true
  · rw [if_pos hany]
    exact lookup_map_replace k v l hany
  · rw [if_neg hany]
    exact lookup_append_fresh k v l ((Bool.not_eq_true _) ▸ hany)

/-- Claim C10: the read operations check_duplicate, check_exact_duplicate
and find_similar_invoices leave the detector state — invoice_history,
invoice_hashes and vendor_invoices — exactly as it was, and add_invoice
stores the queried invoice in the history under the given id. -/
theorem claim_C10_detector_frame (ratio : String → String → ℚ)
    (md5 : String → String) (d : Detector) (invoice_id : String) (inv : Invoice)
    (thr : ℚ) (mr : Nat) :
    (DuplicateDetector.check_duplicate ratio md5 d inv thr).1 = d ∧
    (DuplicateDetector.check_exact_duplicate md5 d invoice_id inv).1 = d ∧
    (DuplicateDetector.find_similar_invoices ratio d inv thr mr).1 = d ∧
    (DuplicateDetector.add_invoice md5 d invoice_id inv).invoice_history.lookup
      invoice_id = some inv :=
  ⟨check_duplicate_fst ratio md5 d inv thr,
   check_exact_duplicate_fst md5 d invoice_id inv,
   find_similar_invoices_fst ratio d inv thr mr,
   lookup_dictInsert invoice_id inv d.invoice_history⟩

/-- Unpacking a successful cluster search: the index is in range and the
id is a member of the cluster found. -/
theorem findClusterIdx_some_spec (clusters : List (Finset String)) (a : String)
    (i : Nat) (h : DuplicateDetector.findClusterIdx clusters a = some i) :
    ∃ hi : i < clusters.length, a ∈ clusters.get ⟨i, hi⟩ := by
  unfold DuplicateDetector.findClusterIdx at h
  rw [List.findIdx?_eq_some_iff_getElem] at h
  obtain ⟨hlt, hp, _⟩ := h
  exact ⟨hlt, by simpa using hp⟩

/-- Any two distinct positions of a pairwise-disjoint cluster list hold
disjoint clusters (in either order). -/
theorem pairwise_disjoint_get (cs : List (Finset String))
    (h : cs.Pairwise (fun s t => Disjoint s t)) (k l : Nat)
    (hk : k < cs.length) (hl : l < cs.length) (hkl : k ≠ l) :
    Disjoint (cs.get ⟨k, hk⟩) (cs.get ⟨l, hl⟩) := by
  rcases Nat.lt_or_ge k l with hlt | hge
  · simpa using (List.pairwise_iff_getElem.mp h) k l hk hl hlt
  · have hlt : l < k := by omega
    exact Disjoint.symm (by simpa using (List.pairwise_iff_getElem.mp h) l k hl hk hlt)

/-- Core of the cluster-merge invariant: overwriting position i with a
cluster u disjoint from every position other than i and j, then deleting
position j, preserves pairwise disjointness. -/
theorem pairwise_disjoint_set_erase (cs : List (Finset String)) (i j : Nat)
    (u : Finset String) (hi : i < cs.length) (hj : j < cs.length) (hij : i ≠ j)
    (hu : ∀ l (hl : l < cs.length), l ≠ i → l ≠ j → Disjoint u (cs.get ⟨l, hl⟩))
    (h : cs.Pairwise (fun s t => Disjoint s t)) :
    ((cs.set i u).eraseIdx j).Pairwise (fun s t => Disjoint s t) := by
  have hlen_set : (cs.set i u).length = cs.length := List.length_set cs i u
  have hj2 : j < (cs.set i u).length := by omega
  have hlen : ((cs.set i u).eraseIdx j).length = cs.length - 1 := by
    rw [List.length_eraseIdx_of_lt hj2, hlen_set]
  have key : ∀ M N (hM : M < (cs.set i u).length) (hN : N < (cs.set i u).length),
      M ≠ N → M ≠ j → N ≠ j →
      Disjoint (cs.set i u)[M] (cs.set i u)[N] := by
    intro M N hM hN hMN hMj hNj
    have hM2 : M < cs.length := by omega
    have hN2 : N < cs.length := by omega
    rw [List.getElem_set, List.getElem_set]
    by_cases hiM : i = M
    · rw [if_pos hiM, if_neg (by omega : ¬ i = N)]
      simpa using hu N hN2 (by omega) (by omega)
    · rw [if_neg hiM]
      by_cases hiN : i = N
      · rw [if_pos hiN]
        exact Disjoint.symm (by simpa using hu M hM2 (by omega) (by omega))
      · rw [if_neg hiN]
        simpa using pairwise_disjoint_get cs h M N hM2 hN2 hMN
  rw [List.pairwise_iff_getElem]
  intro m n hm hn hmn
  have hm2 : m < cs.length - 1 := by omega
  have hn2 : n < cs.length - 1 := by omega
  rw [List.getElem_eraseIdx, List.getElem_eraseIdx]
  split_ifs with hmj hnj
  · exact key m n (by omega) (by omega) (by omega) (by omega) (by omega)
  · exact key m (n + 1) (by omega) (by omega) (by omega) (by omega) (by omega)
  · rw [dif_neg (by omega : ¬ n < j)]
    exact key (m + 1) (n + 1) (by omega) (by omega) (by omega) (by omega) (by omega)

/-- One merge step of the clustering loop preserves pairwise
disjointness. -/
theorem pairwise_disjoint_mergePair (cs : List (Finset String)) (a b : String)
    (h : cs.Pairwise (fun s t => Disjoint s t)) :
    (DuplicateDetector.mergePair cs a b).Pairwise (fun s t => Disjoint s t) := by
  unfold DuplicateDetector.mergePair
  rcases hia : DuplicateDetector.findClusterIdx cs a with _ | i
  · simpa only [hia] using h
  rcases hib : DuplicateDetector.findClusterIdx cs b with _ | j
  · simpa only [hia, hib] using h
  simp only [hia, hib]
  by_cases hij : i ≠ j
  · rw [if_pos hij]
    obtain ⟨hi, _⟩ := findClusterIdx_some_spec cs a i hia
    obtain ⟨hj, _⟩ := findClusterIdx_some_spec cs b j hib
    have hgu : cs.getD i ∅ ∪ cs.getD j ∅ = cs.get ⟨i, hi⟩ ∪ cs.get ⟨j, hj⟩ := by
      rw [List.getD_eq_getElem?_getD, List.getD_eq_getElem?_getD,
        List.getElem?_eq_getElem hi, List.getElem?_eq_getElem hj]
      rfl
    rw [hgu]
    apply pairwise_disjoint_set_erase cs i j _ hi hj hij ?_ h
    intro l hl hli hlj
    rw [Finset.disjoint_union_left]
    exact ⟨pairwise_disjoint_get cs h i l hi hl (fun he => hli he.symm),
           pairwise_disjoint_get cs h j l hj hl (fun he => hlj he.symm)⟩
  · rw [if_neg hij]
    exact h

/-- Folding merge steps over any pair list preserves pairwise
disjointness. -/
theorem pairwise_disjoint_foldl_merge
    (pairs : List ((String × Invoice) × (String × Invoice)))
    (cs : List (Finset String)) (h : cs.Pairwise (fun s t => Disjoint s t)) :
    (pairs.foldl (fun cs q => DuplicateDetector.mergePair cs q.1.1 q.2.1) cs).Pairwise
      (fun s t => Disjoint s t) := by
  induction pairs generalizing cs with
  | nil => exact h
  | cons p t ih => exact ih _ (pairwise_disjoint_mergePair _ _ _ h)

/-- The initial singleton clusters of distinct history keys are pairwise
disjoint. -/
theorem pairwise_disjoint_singletons (l : List (String × Invoice))
    (h : (l.map Prod.fst).Nodup) :
    (l.map (fun p => ({p.1} : Finset String))).Pairwise (fun s t => Disjoint s t) := by
  have h2 : l.Pairwise (fun p q => p.1 ≠ q.1) := by
    have := (List.pairwise_map).mp h
    exact this
  rw [List.pairwise_map]
  refine h2.imp ?_
  intro p q hpq
  rw [Finset.disjoint_singleton_left, Finset.mem_singleton]
  exact hpq

/-- Claim C5: for every detector state with distinct history keys (as a
Python dict guarantees) and every threshold, get_duplicate_clusters
returns pairwise-disjoint clusters — no invoice id lies in two different
clusters — each holding at least 2 invoice ids. -/
theorem claim_C5_clusters_disjoint_and_large (ratio : String → String → ℚ)
    (d : Detector) (thr : ℚ) (h : (d.invoice_history.map Prod.fst).Nodup) :
    (DuplicateDetector.get_duplicate_clusters ratio d thr).Pairwise
      (fun s t => Disjoint s t) ∧
    ∀ c ∈ DuplicateDetector.get_duplicate_clusters ratio d thr, 2 ≤ c.card := by
  unfold DuplicateDetector.get_duplicate_clusters
  constructor
  · apply List.Pairwise.sublist (List.filter_sublist _)
    exact pairwise_disjoint_foldl_merge _ _ (pairwise_disjoint_singletons _ h)
  · intro c hc
    have hmem := List.of_mem_filter hc
    have h2 : 1 < c.card := of_decide_eq_true hmem
    omega

/-- Witness for C5: the two-invoice detector detPair (whose blank invoices
are maximally similar) at threshold 0.8 satisfies the hypothesis and the
conclusion. -/
theorem claim_C5_clusters_disjoint_and_large_witness :
    (detPair.invoice_history.map Prod.fst).Nodup ∧
    ((DuplicateDetector.get_duplicate_clusters ratioZero detPair 0.8).Pairwise
      (fun s t => Disjoint s t) ∧
    ∀ c ∈ DuplicateDetector.get_duplicate_clusters ratioZero detPair 0.8, 2 ≤ c.card) :=
  ⟨by decide, claim_C5_clusters_disjoint_and_large ratioZero detPair 0.8 (by decide)⟩

end InvoiceAuditor
